import Mathlib

/-!
Verification development for the HBCD SyMRI relaxometry workflow
(`update.py`).  The Python source is shallowly embedded below: strings are
modelled as Lean `String`s manipulated through character-list helpers that
mirror Python's `str.split`, `str.join` and `str.replace`; QC scores are
modelled as `Option Int` (a JSON `null` becomes `none`); the S3 / tar /
container collaborators are summarised by an environment record holding
their observable outcomes; an uncaught Python exception is an
`Except.error`.
-/

namespace SymriUpdate

/-! ## Character-list string helpers (Python `str.split` / `join` / `replace`) -/

/-- Split a character list at a separator character.  Mirrors Python
`str.split(sep)` for a single-character separator: `''.split` gives `['']`. -/
def splitCharsAux (sep : Char) : List Char → List Char → List (List Char)
  | [], cur => [cur.reverse]
  | c :: rest, cur =>
    if c = sep then cur.reverse :: splitCharsAux sep rest []
    else splitCharsAux sep rest (c :: cur)

/-- Python `s.split(sep)` for a one-character separator. -/
def pySplit (sep : Char) (s : String) : List String :=
  (splitCharsAux sep s.data []).map String.mk

/-- Python `sep.join(parts)` for a one-character separator. -/
def pyJoin (sep : Char) (parts : List String) : String :=
  String.mk (List.intercalate [sep] (parts.map String.data))

/-- Replace occurrences of `pat` by `rep`, scanning left to right; `fuel`
bounds the recursion and is instantiated with the input length, which is
always sufficient. -/
def replaceFuel (pat rep : List Char) : Nat → List Char → List Char
  | 0, l => l
  | _ + 1, [] => []
  | fuel + 1, c :: rest =>
    if pat ≠ [] ∧ pat.isPrefixOf (c :: rest) then
      rep ++ replaceFuel pat rep fuel (List.drop (pat.length - 1) rest)
    else
      c :: replaceFuel pat rep fuel rest

/-- Python `s.replace(pat, rep)` (for non-empty `pat`). -/
def pyReplace (pat rep s : String) : String :=
  String.mk (replaceFuel pat.data rep.data s.data.length s.data)

/-- Python `s.split('/')[-1]`: the final path component. -/
def lastPathComponent (s : String) : String :=
  (pySplit '/' s).getLastD ""

/-! ## Association-list helpers (Python `dict` / `list` operations) -/

/-- First-match lookup, as in a Python `dict` (whose keys are unique). -/
def lookupEntry {α : Type} : List (String × α) → String → Option α
  | [], _ => none
  | (k', v) :: rest, k => if k' = k then some v else lookupEntry rest k

/-- Python `d[k] = v`: overwrite in place if the key exists, else append. -/
def setEntry {α : Type} : List (String × α) → String → α → List (String × α)
  | [], k, v => [(k, v)]
  | (k', v') :: rest, k, v =>
    if k' = k then (k, v) :: rest else (k', v') :: setEntry rest k v

/-- Python `list.remove`: drop the first occurrence (identity when the
element is absent; every call site in the source guards with `in`). -/
def removeFirst (x : String) : List String → List String
  | [] => []
  | y :: rest => if y = x then rest else y :: removeFirst x rest

/-- Deterministic model of Python `list(set(xs))`: keep the last occurrence
of each element.  Only membership in the result is relied upon. -/
def dedupList : List String → List String
  | [] => []
  | x :: rest => if x ∈ rest then dedupList rest else x :: dedupList rest

/-! ## Data model: QC records and the best-QALAS summary -/

/-- One scan's entry inside a `*_mripcqc_info.json` file (`update.py` reads
the fields `SeriesType`, `QU_motion`, `aqc_motion`, `HBCD_compliant`,
`brain_SNR` plus the identifying fields).  A JSON `null` is `none`. -/
structure Scan where
  SeriesType : String
  QU_motion : Option Int
  aqc_motion : Option Int
  HBCD_compliant : Option String
  brain_SNR : Option Int
  SeriesInstanceUID : String
  StudyInstanceUID : String
  SubjID : String
deriving Repr, DecidableEq

/-- The dictionary built by `update_best_qalas_info_dict` in `update.py`. -/
structure BestQalasInfo where
  QU_motion : Option Int
  aqc_motion : Option Int
  SeriesInstanceUID : String
  StudyInstanceUID : String
  SubjID : String
  json_for_unpacked_archive : String
  archive_to_download : String
deriving Repr, DecidableEq

/-- Embeds `update_best_qalas_info_dict(scan_dict, json_name)`. -/
def update_best_qalas_info_dict (scan : Scan) (json_name : String) : BestQalasInfo :=
  { QU_motion := scan.QU_motion
    aqc_motion := scan.aqc_motion
    SeriesInstanceUID := scan.SeriesInstanceUID
    StudyInstanceUID := scan.StudyInstanceUID
    SubjID := scan.SubjID
    json_for_unpacked_archive := json_name
    archive_to_download :=
      lastPathComponent (pyReplace "_mripcqc_info.json" ".tar.gz" json_name) }

/-! ## Candidate selection (`qalas_selection_with_qu_motion` /
`qalas_selection_without_qu_motion`) -/

/-- Running best candidate of the primary pass: the info dictionary together
with the `best_qalas_qu_score`, `best_qalas_aqc_score` and `best_qalas_snr`
accumulators.  `none` models the initial `±inf` state in which any compliant
complete record wins. -/
structure SelCur where
  info : BestQalasInfo
  qu : Int
  aqc : Int
  snr : Int
deriving Repr, DecidableEq

/-- One comparison step of the primary pass (the nested `if` chain at
`update.py` lines 228-245), for a compliant-checked record. -/
def stepWith (best : Option SelCur) (j : String) (s : Scan)
    (qu aqc snr : Int) (comp : String) : Option SelCur :=
  if comp = "Yes" then
    let cand : SelCur := ⟨update_best_qalas_info_dict s j, qu, aqc, snr⟩
    match best with
    | none => some cand
    | some cur =>
      if qu < cur.qu then some cand
      else if qu = cur.qu then
        if aqc < cur.aqc then some cand
        else if aqc = cur.aqc then
          if snr > cur.snr then some cand else some cur
        else some cur
      else some cur
  else best

/-- The flattened iteration order of the two nested loops in both selection
functions: each downloaded json contributes its scans in order. -/
def scanPairs (jsons : List (String × List Scan)) : List (String × Scan) :=
  (jsons.map (fun p => p.2.map (fun s => (p.1, s)))).flatten

/-- Recursive core of `qalas_selection_with_qu_motion`: for every qMRI scan
the four fields `QU_motion`, `aqc_motion`, `HBCD_compliant`, `brain_SNR`
must be non-null, otherwise the function returns `(None, True)` at once. -/
def selWithAux : List (String × Scan) → Option SelCur → Option BestQalasInfo × Bool
  | [], best => (best.map (fun c => c.info), false)
  | (j, s) :: rest, best =>
    if s.SeriesType = "qMRI" then
      match s.QU_motion, s.aqc_motion, s.HBCD_compliant, s.brain_SNR with
      | some qu, some aqc, some comp, some snr =>
        selWithAux rest (stepWith best j s qu aqc snr comp)
      | _, _, _, _ => (none, true)
    else selWithAux rest best

/-- Embeds `qalas_selection_with_qu_motion(downloaded_jsons)`.  The input is
the parsed content of each downloaded json (file name and scan list). -/
def qalas_selection_with_qu_motion (jsons : List (String × List Scan)) :
    Option BestQalasInfo × Bool :=
  selWithAux (scanPairs jsons) none

/-- Running best candidate of the relaxed pass (no `QU_motion` ranking). -/
structure SelCur2 where
  info : BestQalasInfo
  aqc : Int
  snr : Int
deriving Repr, DecidableEq

/-- One comparison step of the relaxed pass (`update.py` lines 273-282). -/
def stepWithout (best : Option SelCur2) (j : String) (s : Scan)
    (aqc snr : Int) (comp : String) : Option SelCur2 :=
  if comp = "Yes" then
    let cand : SelCur2 := ⟨update_best_qalas_info_dict s j, aqc, snr⟩
    match best with
    | none => some cand
    | some cur =>
      if aqc < cur.aqc then some cand
      else if aqc = cur.aqc then
        if snr > cur.snr then some cand else some cur
      else some cur
  else best

/-- Recursive core of `qalas_selection_without_qu_motion`: for every qMRI
scan the fields `aqc_motion`, `HBCD_compliant`, `brain_SNR` must be
non-null, otherwise `(None, True)` is returned at once. -/
def selWithoutAux : List (String × Scan) → Option SelCur2 → Option BestQalasInfo × Bool
  | [], best => (best.map (fun c => c.info), false)
  | (j, s) :: rest, best =>
    if s.SeriesType = "qMRI" then
      match s.aqc_motion, s.HBCD_compliant, s.brain_SNR with
      | some aqc, some comp, some snr =>
        selWithoutAux rest (stepWithout best j s aqc snr comp)
      | _, _, _ => (none, true)
    else selWithoutAux rest best

/-- Embeds `qalas_selection_without_qu_motion(downloaded_jsons)`. -/
def qalas_selection_without_qu_motion (jsons : List (String × List Scan)) :
    Option BestQalasInfo × Bool :=
  selWithoutAux (scanPairs jsons) none

/-- The two-pass sequence of `main` (`update.py` lines 817-820): the relaxed
pass runs whenever the primary pass yields no winner. -/
def effective_selection (jsons : List (String × List Scan)) :
    Option BestQalasInfo × Bool :=
  match qalas_selection_with_qu_motion jsons with
  | (some info, miss) => (some info, miss)
  | (none, _) => qalas_selection_without_qu_motion jsons

/-! ## Session grouping (`main`, `update.py` lines 697-704) -/

/-- Python `'_'.join(temp_file.split('_')[0:3])`: the session key of a
metadata file name. -/
def session_key_of (f : String) : String :=
  pyJoin '_' ((pySplit '_' f).take 3)

/-- One iteration of the grouping loop: insert `f` under its session key. -/
def add_to_jsons_dict (d : List (String × List String)) (f : String) :
    List (String × List String) :=
  let k := session_key_of f
  match lookupEntry d k with
  | none => d ++ [(k, [f])]
  | some l => setEntry d k (l ++ [f])

/-- The full `jsons_dict` built from the listed `*_mripcqc_info.json` keys. -/
def jsons_dict_of (files : List String) : List (String × List String) :=
  files.foldl add_to_jsons_dict []

/-- Convenience: the file list grouped under a key (empty when absent). -/
def lookupListD (d : List (String × List String)) (k : String) : List String :=
  (lookupEntry d k).getD []

/-! ## Archive-name parsing (`targz_to_sub_ses_labels`) -/

/-- Embeds `targz_to_sub_ses_labels(targz_name)`: `none` models the
`(False, False)` result for names failing the 9/6/3-token pattern. -/
def targz_to_sub_ses_labels (targz_name : String) : Option (String × String) :=
  let split_name := pySplit '_' (lastPathComponent targz_name)
  if 3 ≤ split_name.length then
    let t0 := split_name.getD 0 ""
    let t1 := split_name.getD 1 ""
    let t2 := split_name.getD 2 ""
    if t0.length = 9 ∧ t1.length = 6 ∧ t2.length = 3 ∧ t2.data.take 1 = ['V'] then
      if split_name.length = 3 then some (t1, (pySplit '.' t2).getD 0 "")
      else some (t1, t2)
    else none
  else none

/-! ## Conversion (`convert_single_tar`) -/

/-- The fields of `output_info` that the caller inspects. -/
structure ConvOut where
  subject_label : String
  session_label : String
  num_niftis_generated : Nat
  symri_conversion_error : Nat
  dcm2bids_conversion_error : Nat
deriving Repr, DecidableEq

/-- Embeds `convert_single_tar`.  External effects are summarised by
`symri_output_count` (number of files the SyMRI container left in
`dcm_maps_dir`; completion requires exactly 7), `dcm2bids_ok` (whether the
dcm2bids block raised), and `niftis_found` (the `*.nii.gz` glob count).
`Except.error` models the uncaught `NameError` raised when more than one
matching QALAS folder was identified. -/
def convert_single_tar (qalas_folders : Option (List String))
    (info : BestQalasInfo) (symri_output_count : Nat) (dcm2bids_ok : Bool)
    (niftis_found : Nat) : Except String ConvOut :=
  match targz_to_sub_ses_labels info.archive_to_download with
  | none =>
    Except.ok ⟨"NON_CONFORMANT_TAR_NAME", "NON_CONFORMANT_TAR_NAME", 0, 0, 0⟩
  | some (sub, ses) =>
    match qalas_folders with
    | none => Except.ok ⟨sub, ses, 0, 1, 0⟩
    | some folders =>
      if folders.length = 1 then
        if symri_output_count = 7 then
          if dcm2bids_ok then Except.ok ⟨sub, ses, niftis_found, 0, 0⟩
          else Except.ok ⟨sub, ses, niftis_found, 0, 1⟩
        else Except.ok ⟨sub, ses, 0, 1, 0⟩
      else
        Except.error "Error: multiple qalas archives were erroneously identified"

/-! ## The two persisted logs -/

/-- One tracking-log record: `info = none` models the bare
`{jsons_tested: [...]}` entry written for a definitive no-qualifying-scan
determination. -/
structure TrackEntry where
  info : Option BestQalasInfo
  jsons_tested : List String
deriving Repr, DecidableEq

/-- The parsed `reproc_log.json` contents. -/
structure ReprocLog where
  to_reprocess : List String
  new_archive_available : List String
  qalas_in_qc_but_not_archive : List String
  no_niftis_to_upload : List String
  missing_archive : List String
deriving Repr, DecidableEq

/-! ## Session-selection phase (`main`, `update.py` lines 741-788) -/

/-- Embeds `sessions_to_skip` (`update.py` lines 742-745): the four failure buckets
concatenated, minus one occurrence of each `to_reprocess` entry. -/
def sessions_to_skip_of (rl : ReprocLog) : List String :=
  let skip0 := rl.new_archive_available ++ rl.qalas_in_qc_but_not_archive ++
    rl.no_niftis_to_upload ++ rl.missing_archive
  rl.to_reprocess.foldl (fun acc s => if s ∈ acc then removeFirst s acc else acc) skip0

/-- Accumulator of the selection loop: the `sessions_to_evaluate` dict (as
an ordered key/jsons list), the `new_archive_available` and
`reprocess_attempted` lists, and `num_to_process`. -/
structure SelectAcc where
  sessions_to_evaluate : List (String × List String)
  new_archive_available : List String
  reprocess_attempted : List String
  num_to_process : Int
deriving Repr, DecidableEq

/-- The selection loop over `jsons_dict` (`update.py` lines 753-788),
including the `continue`/`break` control flow: `continue` branches skip the
trailing `num_to_process == batch_limit` break check. -/
def selectLoop (tracking : List (String × TrackEntry)) (to_re skip : List String)
    (batch_limit : Int) : List (String × List String) → SelectAcc → SelectAcc
  | [], acc => acc
  | (key, js) :: rest, acc =>
    if key ∈ skip then
      selectLoop tracking to_re skip batch_limit rest acc
    else
      match lookupEntry tracking key with
      | some entry =>
        let num_same : Nat := (js.filter (fun j => j ∈ entry.jsons_tested)).length
        if key ∈ to_re then
          let acc' : SelectAcc :=
            { acc with
              sessions_to_evaluate := acc.sessions_to_evaluate ++ [(key, js)]
              reprocess_attempted := acc.reprocess_attempted ++ [key]
              num_to_process := acc.num_to_process + 1 }
          if acc'.num_to_process = batch_limit then acc'
          else selectLoop tracking to_re skip batch_limit rest acc'
        else if num_same = entry.jsons_tested.length then
          selectLoop tracking to_re skip batch_limit rest acc
        else
          let acc' : SelectAcc :=
            { acc with new_archive_available := acc.new_archive_available ++ [key] }
          if acc'.num_to_process = batch_limit then acc'
          else selectLoop tracking to_re skip batch_limit rest acc'
      | none =>
        let acc' : SelectAcc :=
          if acc.num_to_process < batch_limit then
            { acc with
              sessions_to_evaluate := acc.sessions_to_evaluate ++ [(key, js)]
              num_to_process := acc.num_to_process + 1 }
          else acc
        if acc'.num_to_process = batch_limit then acc'
        else selectLoop tracking to_re skip batch_limit rest acc'

/-- The selection phase entered with the loaded `new_archive_available` list
(the loop appends to it in place). -/
def sessions_needing_evaluation (tracking : List (String × TrackEntry))
    (to_re skip : List String) (batch_limit : Int)
    (jsons_dict : List (String × List String))
    (loaded_new_archive : List String) : SelectAcc :=
  selectLoop tracking to_re skip batch_limit jsons_dict
    ⟨[], loaded_new_archive, [], 0⟩

/-! ## Per-session processing (`main`, `update.py` lines 797-921) -/

/-- The mutable state threaded through the processing loop: the in-memory
tracking dictionary, the five reprocess-log lists, the
`reprocess_attempted` list, and the set of per-session working directories
currently present on disk (identified by session key). -/
structure RunState where
  tracking_log : List (String × TrackEntry)
  to_reprocess : List String
  new_archive_available : List String
  qalas_in_qc_but_not_archive : List String
  no_niftis_to_upload : List String
  missing_archive : List String
  reprocess_attempted : List String
  work_dirs : List String
deriving Repr, DecidableEq

/-- Observable outcomes of the external collaborators for one session:
whether the QC-json download succeeded, the parsed json contents, whether
the archive download succeeded, the QALAS folders located after
extraction, the SyMRI output-file count, whether dcm2bids raised, the
generated-nifti count, and whether the derivative upload succeeded. -/
structure SessionEnv where
  json_fetch_ok : Bool
  scans : List (String × List Scan)
  archive_fetch_ok : Bool
  qalas_folders : List String
  symri_output_count : Nat
  dcm2bids_ok : Bool
  niftis_found : Nat
  upload_ok : Bool
deriving Repr

/-- The distinct exits of the per-session code path. -/
inductive SessionOutcome where
  | success
  | no_qualifying_scan
  | data_incomplete
  | missing_archive
  | qalas_in_qc_but_not_archive
  | no_niftis_to_upload
deriving Repr, DecidableEq

/-- Models `os.makedirs` of the session working directory (guarded, idempotent). -/
def workdirInsert (w : List String) (k : String) : List String :=
  if k ∈ w then w else w ++ [k]

/-- Models `shutil.rmtree(session_base_dir)` behind the `keep_work_dirs` guard
(`update.py` lines 917-919); removing a directory removes it entirely. -/
def cleanupWorkdir (keep : Bool) (key : String) (st : RunState) : RunState :=
  if keep then st
  else { st with work_dirs := st.work_dirs.filter (fun d => d ≠ key) }

/-- One iteration of the processing loop (`update.py` lines 797-921).
`Except.error` models an uncaught exception (json-download `ValueError`,
`convert_single_tar`'s `NameError`, or the upload `ValueError`), which
aborts the whole batch.  The paths that `continue` before the cleanup block
(`missing_archive`, `qalas_in_qc_but_not_archive`, `no_niftis_to_upload`)
leave the session working directory in place. -/
def process_session (keep_work_dirs : Bool) (key : String)
    (session_jsons : List String) (env : SessionEnv) (st : RunState) :
    Except String (RunState × SessionOutcome) :=
  let st := { st with work_dirs := workdirInsert st.work_dirs key }
  if env.json_fetch_ok = false then
    Except.error "Error: Unable to download jsons for current subject/session."
  else
    match effective_selection env.scans with
    | (some info, _) =>
      if env.archive_fetch_ok = false then
        Except.ok ({ st with missing_archive := st.missing_archive ++ [key] },
          SessionOutcome.missing_archive)
      else if env.qalas_folders.length = 0 then
        Except.ok
          ({ st with qalas_in_qc_but_not_archive :=
              st.qalas_in_qc_but_not_archive ++ [key] },
            SessionOutcome.qalas_in_qc_but_not_archive)
      else
        match convert_single_tar (some env.qalas_folders) info
            env.symri_output_count env.dcm2bids_ok env.niftis_found with
        | Except.error e => Except.error e
        | Except.ok out =>
          if out.num_niftis_generated < 3 then
            Except.ok
              ({ st with no_niftis_to_upload := st.no_niftis_to_upload ++ [key] },
                SessionOutcome.no_niftis_to_upload)
          else if env.upload_ok = false then
            Except.error "Error: Pushing data to S3 was unsuccessful."
          else
            let st :=
              { st with tracking_log :=
                  setEntry st.tracking_log key ⟨some info, session_jsons⟩ }
            let st :=
              if key ∈ st.reprocess_attempted then
                { st with
                  reprocess_attempted := removeFirst key st.reprocess_attempted
                  new_archive_available := removeFirst key st.new_archive_available
                  qalas_in_qc_but_not_archive :=
                    removeFirst key st.qalas_in_qc_but_not_archive
                  no_niftis_to_upload := removeFirst key st.no_niftis_to_upload
                  missing_archive := removeFirst key st.missing_archive }
              else st
            Except.ok (cleanupWorkdir keep_work_dirs key st, SessionOutcome.success)
    | (none, miss) =>
      if miss = false then
        let st :=
          { st with tracking_log :=
              setEntry st.tracking_log key ⟨none, session_jsons⟩ }
        Except.ok (cleanupWorkdir keep_work_dirs key st,
          SessionOutcome.no_qualifying_scan)
      else
        Except.ok (cleanupWorkdir keep_work_dirs key st,
          SessionOutcome.data_incomplete)

/-- The processing loop over `sessions_to_evaluate`; the first uncaught
exception aborts the whole run. -/
def process_all (keep : Bool) (envs : String → SessionEnv) :
    List (String × List String) → RunState → Except String RunState
  | [], st => Except.ok st
  | (key, js) :: rest, st =>
    match process_session keep key js (envs key) st with
    | Except.error e => Except.error e
    | Except.ok (st', _) => process_all keep envs rest st'

/-! ## The whole run (`main`) -/

/-- The selection phase exactly as `main` performs it from the listed
files and the loaded logs. -/
def main_sel (files : List String) (tracking_in : List (String × TrackEntry))
    (reproc_in : Option ReprocLog) (batch_limit : Int) : SelectAcc :=
  let jsons_dict := jsons_dict_of files
  let rl := reproc_in.getD ⟨[], [], [], [], []⟩
  sessions_needing_evaluation tracking_in rl.to_reprocess
    (sessions_to_skip_of rl) batch_limit jsons_dict rl.new_archive_available

/-- The `RunState` at the start of the processing loop: the loaded logs plus
the lists the selection phase already extended (`new_archive_available`,
`reprocess_attempted`). -/
def main_st0 (files : List String) (tracking_in : List (String × TrackEntry))
    (reproc_in : Option ReprocLog) (batch_limit : Int) : RunState :=
  let rl := reproc_in.getD ⟨[], [], [], [], []⟩
  let sel := main_sel files tracking_in reproc_in batch_limit
  { tracking_log := tracking_in
    to_reprocess := rl.to_reprocess
    new_archive_available := sel.new_archive_available
    qalas_in_qc_but_not_archive := rl.qalas_in_qc_but_not_archive
    no_niftis_to_upload := rl.no_niftis_to_upload
    missing_archive := rl.missing_archive
    reprocess_attempted := sel.reprocess_attempted
    work_dirs := [] }

/-- The reprocess-log contents written at the end of the run
(`update.py` lines 932-938): `to_reprocess` filtered by
`reprocess_attempted`, the four buckets deduplicated (`list(set(...))`). -/
def write_reproc_log (st : RunState) : ReprocLog :=
  { to_reprocess :=
      st.to_reprocess.filter (fun i => if i ∈ st.reprocess_attempted then false else true)
    new_archive_available := dedupList st.new_archive_available
    qalas_in_qc_but_not_archive := dedupList st.qalas_in_qc_but_not_archive
    no_niftis_to_upload := dedupList st.no_niftis_to_upload
    missing_archive := dedupList st.missing_archive }

/-- Embeds `main` end to end: list and group the metadata files, load both
logs, select the sessions to evaluate, process them sequentially, and — only
when no exception was raised — produce the new tracking-log contents and the
reprocess-log contents that are written at the end of the run.  An
`Except.error` result models the batch aborting with both logs unwritten. -/
def main_run (files : List String) (tracking_in : List (String × TrackEntry))
    (reproc_in : Option ReprocLog) (envs : String → SessionEnv)
    (keep_work_dirs : Bool) (batch_limit : Int) :
    Except String (List (String × TrackEntry) × ReprocLog) :=
  match process_all keep_work_dirs envs
      (main_sel files tracking_in reproc_in batch_limit).sessions_to_evaluate
      (main_st0 files tracking_in reproc_in batch_limit) with
  | Except.error e => Except.error e
  | Except.ok st => Except.ok (st.tracking_log, write_reproc_log st)

/-! ## Result accessors used in theorem statements -/

/-- Whether the run aborted with an uncaught exception. -/
def run_failed {α : Type} : Except String α → Bool
  | Except.error _ => true
  | Except.ok _ => false

/-- The reprocess-log contents written at the end of a non-aborted run. -/
def written_reproc_log :
    Except String (List (String × TrackEntry) × ReprocLog) → Option ReprocLog
  | Except.error _ => none
  | Except.ok p => some p.2

/-- The tracking-log contents written at the end of a non-aborted run. -/
def written_tracking_log :
    Except String (List (String × TrackEntry) × ReprocLog) →
      Option (List (String × TrackEntry))
  | Except.error _ => none
  | Except.ok p => some p.1

/-- The outcome tag of one session's processing, when it did not raise. -/
def session_result_outcome :
    Except String (RunState × SessionOutcome) → Option SessionOutcome
  | Except.error _ => none
  | Except.ok p => some p.2

/-- The state after one session's processing, when it did not raise. -/
def session_result_state :
    Except String (RunState × SessionOutcome) → Option RunState
  | Except.error _ => none
  | Except.ok p => some p.1

/-! ## Log-file persistence paths (`main`, `update.py` lines 923-941) -/

/-- Models the path `logs_dir + '/tracking_log_' + date_time + '.json'`. -/
def tracking_log_path (logs_dir date_time : String) : String :=
  logs_dir ++ "/tracking_log_" ++ date_time ++ ".json"

/-- Models the path `base_directory_for_proc + '/reproc_log.json'`: the fixed
path both read at start-up and written at the end of every run. -/
def reproc_log_path (base_dir : String) : String :=
  base_dir ++ "/reproc_log.json"

/-- The two file writes a completed run performs, with the file contents
abstracted to a tag. -/
def run_log_writes (base_dir logs_dir date_time : String) (content : Nat) :
    List (String × Nat) :=
  [(tracking_log_path logs_dir date_time, content),
   (reproc_log_path base_dir, content)]

/-- Apply a list of file writes to a file-system model (path ↦ content). -/
def apply_writes (fs : List (String × Nat)) (ws : List (String × Nat)) :
    List (String × Nat) :=
  ws.foldl (fun acc w => setEntry acc w.1 w.2) fs

/-! ## Mandatory-field predicates of the two selection passes -/

/-- A qualifying (qMRI) record that fails the primary pass's mandatory-field
check (`update.py` line 223): one of `QU_motion`, `aqc_motion`,
`HBCD_compliant`, `brain_SNR` is null. -/
def missingPrimary (s : Scan) : Prop :=
  s.SeriesType = "qMRI" ∧ (s.QU_motion = none ∨ s.aqc_motion = none ∨
    s.HBCD_compliant = none ∨ s.brain_SNR = none)

instance (s : Scan) : Decidable (missingPrimary s) := by
  unfold missingPrimary; infer_instance

/-- A qualifying (qMRI) record that fails the relaxed pass's mandatory-field
check (`update.py` line 267): one of `aqc_motion`, `HBCD_compliant`,
`brain_SNR` is null. -/
def missingRelaxed (s : Scan) : Prop :=
  s.SeriesType = "qMRI" ∧ (s.aqc_motion = none ∨ s.HBCD_compliant = none ∨
    s.brain_SNR = none)

instance (s : Scan) : Decidable (missingRelaxed s) := by
  unfold missingRelaxed; infer_instance

theorem missingPrimary_of_relaxed {s : Scan} (h : missingRelaxed s) :
    missingPrimary s :=
  ⟨h.1, Or.inr h.2⟩

theorem selWithAux_eq_of_missing :
    ∀ (l : List (String × Scan)) (best : Option SelCur),
      (∃ p ∈ l, missingPrimary p.2) → selWithAux l best = (none, true) := by
  intro l
  induction l with
  | nil => intro best h; simp at h
  | cons hd tl ih =>
    obtain ⟨j, s⟩ := hd
    intro best h
    obtain ⟨p, hp, hm⟩ := h
    simp only [selWithAux]
    by_cases hq : s.SeriesType = "qMRI"
    · rw [if_pos hq]
      rcases hqu : s.QU_motion with _ | qu <;>
        rcases haq : s.aqc_motion with _ | aqc <;>
          rcases hc : s.HBCD_compliant with _ | comp <;>
            rcases hsn : s.brain_SNR with _ | snr
      all_goals try rfl
      rcases List.mem_cons.mp hp with heq | hmem
      · subst heq
        simp only [missingPrimary] at hm
        rcases hm with ⟨_, h1 | h1 | h1 | h1⟩ <;> simp_all
      · exact ih _ ⟨p, hmem, hm⟩
    · rw [if_neg hq]
      rcases List.mem_cons.mp hp with heq | hmem
      · subst heq
        exact absurd hm.1 hq
      · exact ih best ⟨p, hmem, hm⟩

theorem selWithoutAux_eq_of_missing :
    ∀ (l : List (String × Scan)) (best : Option SelCur2),
      (∃ p ∈ l, missingRelaxed p.2) → selWithoutAux l best = (none, true) := by
  intro l
  induction l with
  | nil => intro best h; simp at h
  | cons hd tl ih =>
    obtain ⟨j, s⟩ := hd
    intro best h
    obtain ⟨p, hp, hm⟩ := h
    simp only [selWithoutAux]
    by_cases hq : s.SeriesType = "qMRI"
    · rw [if_pos hq]
      rcases haq : s.aqc_motion with _ | aqc <;>
        rcases hc : s.HBCD_compliant with _ | comp <;>
          rcases hsn : s.brain_SNR with _ | snr
      all_goals try rfl
      rcases List.mem_cons.mp hp with heq | hmem
      · subst heq
        simp only [missingRelaxed] at hm
        rcases hm with ⟨_, h1 | h1 | h1⟩ <;> simp_all
      · exact ih _ ⟨p, hmem, hm⟩
    · rw [if_neg hq]
      rcases List.mem_cons.mp hp with heq | hmem
      · subst heq
        exact absurd hm.1 hq
      · exact ih best ⟨p, hmem, hm⟩

/-- C3 — For every session whose QC records include at least one
qualifying-series (SeriesType = qMRI) record missing a mandatory field of
the pass being run, the pass returns no winner with the data-incomplete
flag (`(None, True)`), and — since a record missing a relaxed-pass field
also aborts the primary pass — the per-session step then exits through the
`data_incomplete` branch of `main`, writing neither a tracking-log entry
nor any reprocess-bucket entry for that session, which is therefore
re-evaluated on every future run until its QC data is complete. -/
theorem c3_missing_qc_fields_abort_selection_and_write_nothing :
    (∀ jsons : List (String × List Scan),
        (∃ p ∈ scanPairs jsons, missingPrimary p.2) →
        qalas_selection_with_qu_motion jsons = (none, true)) ∧
    (∀ jsons : List (String × List Scan),
        (∃ p ∈ scanPairs jsons, missingRelaxed p.2) →
        qalas_selection_without_qu_motion jsons = (none, true)) ∧
    (∀ (keep : Bool) (key : String) (js : List String) (env : SessionEnv)
        (st : RunState), env.json_fetch_ok = true →
        (∃ p ∈ scanPairs env.scans, missingRelaxed p.2) →
        session_result_outcome (process_session keep key js env st) =
            some SessionOutcome.data_incomplete ∧
          (session_result_state (process_session keep key js env st)).map
              RunState.tracking_log = some st.tracking_log ∧
          (session_result_state (process_session keep key js env st)).map
              RunState.new_archive_available = some st.new_archive_available ∧
          (session_result_state (process_session keep key js env st)).map
              RunState.qalas_in_qc_but_not_archive =
            some st.qalas_in_qc_but_not_archive ∧
          (session_result_state (process_session keep key js env st)).map
              RunState.no_niftis_to_upload = some st.no_niftis_to_upload ∧
          (session_result_state (process_session keep key js env st)).map
              RunState.missing_archive = some st.missing_archive ∧
          (session_result_state (process_session keep key js env st)).map
              RunState.to_reprocess = some st.to_reprocess ∧
          (session_result_state (process_session keep key js env st)).map
              RunState.reprocess_attempted = some st.reprocess_attempted) := by
  refine ⟨fun jsons h => selWithAux_eq_of_missing _ none h,
    fun jsons h => selWithoutAux_eq_of_missing _ none h, ?_⟩
  intro keep key js env st hf hex
  obtain ⟨p, hp, hm⟩ := hex
  have hw : qalas_selection_with_qu_motion env.scans = (none, true) :=
    selWithAux_eq_of_missing _ none ⟨p, hp, missingPrimary_of_relaxed hm⟩
  have hwo : qalas_selection_without_qu_motion env.scans = (none, true) :=
    selWithoutAux_eq_of_missing _ none ⟨p, hp, hm⟩
  have hsel : effective_selection env.scans = (none, true) := by
    unfold effective_selection
    rw [hw, hwo]
  unfold process_session
  rw [hsel, hf]
  simp only [Bool.true_eq_false, if_false]
  cases keep <;>
    simp [cleanupWorkdir, session_result_outcome, session_result_state]

/-- Fixtures for the closed theorems below. -/
def scanGood : Scan := ⟨"qMRI", some 1, some 1, some "Yes", some 20, "S1", "ST1", "SUBJ"⟩

def scanMissingAqc : Scan := ⟨"qMRI", some 1, none, some "Yes", some 5, "S1", "ST1", "SUBJ"⟩

def fileConformant : String := "SITE00001_123456_V03_extra_mripcqc_info.json"

def keyConformant : String := "SITE00001_123456_V03"

def stEmpty : RunState := ⟨[], [], [], [], [], [], [], []⟩

def c3Env : SessionEnv := ⟨true, [(fileConformant, [scanMissingAqc])], true, ["d1"], 7, true, 3, true⟩

def c3St : RunState := ⟨[("other", ⟨none, ["o.json"]⟩)], ["r"], ["n"], ["q"], ["u"], ["m"], ["a"], []⟩

/-- C3 witness: a concrete session whose single qMRI record has a null
`aqc_motion` is left entirely unrecorded by its processing step. -/
theorem c3_witness :
    session_result_outcome (process_session true "K" [] c3Env c3St) =
        some SessionOutcome.data_incomplete ∧
      (session_result_state (process_session true "K" [] c3Env c3St)).map
          RunState.tracking_log = some c3St.tracking_log ∧
      (session_result_state (process_session true "K" [] c3Env c3St)).map
          RunState.new_archive_available = some c3St.new_archive_available ∧
      (session_result_state (process_session true "K" [] c3Env c3St)).map
          RunState.qalas_in_qc_but_not_archive =
        some c3St.qalas_in_qc_but_not_archive ∧
      (session_result_state (process_session true "K" [] c3Env c3St)).map
          RunState.no_niftis_to_upload = some c3St.no_niftis_to_upload ∧
      (session_result_state (process_session true "K" [] c3Env c3St)).map
          RunState.missing_archive = some c3St.missing_archive ∧
      (session_result_state (process_session true "K" [] c3Env c3St)).map
          RunState.to_reprocess = some c3St.to_reprocess ∧
      (session_result_state (process_session true "K" [] c3Env c3St)).map
          RunState.reprocess_attempted = some c3St.reprocess_attempted :=
  c3_missing_qc_fields_abort_selection_and_write_nothing.2.2 true "K" [] c3Env
    c3St (by decide) (by decide)

/-! ## C6: selection determinism on the three-record example -/

def c6Record1 : Scan := ⟨"qMRI", some 2, some 5, some "Yes", some 10, "S1", "ST1", "A"⟩

def c6Record2 : Scan := ⟨"qMRI", some 2, some 3, some "Yes", some 8, "S2", "ST1", "A"⟩

def c6Record3 : Scan := ⟨"qMRI", some 1, some 1, some "No", some 99, "S3", "ST1", "A"⟩

/-- C6 — On the three records `{compliant:yes, A:2, B:5, SNR:10}`,
`{compliant:yes, A:2, B:3, SNR:8}`, `{compliant:no, A:1, B:1, SNR:99}`
(all fields present), the primary pass returns the second record as the
winner: the tie on `QU_motion` is broken by the lower `aqc_motion`, and the
non-compliant third record is excluded despite its better scores. -/
theorem c6_selection_determinism :
    qalas_selection_with_qu_motion
        [("a_mripcqc_info.json", [c6Record1, c6Record2, c6Record3])] =
      (some (update_best_qalas_info_dict c6Record2 "a_mripcqc_info.json"),
        false) := by
  decide

/-! ## C1: the new-archive check at a strict-superset input -/

/-- C1 (code evaluated at the failing input) — A session with tracking-log
entry `jsons_tested = ["A"]`, current metadata files `["A", "B"]` (a strict
superset) and no `to_reprocess` override is silently skipped by the
selection phase: it is neither evaluated nor added to
`new_archive_available`, because the loop compares `num_same` (the current
files found among `jsons_tested`, here 1) against `len(jsons_tested)`
(also 1) and `continue`s on equality. -/
theorem c1_superset_session_skipped_without_flag :
    sessions_needing_evaluation [("K", ⟨none, ["A"]⟩)] [] [] 20
        [("K", ["A", "B"])] [] =
      ⟨[], [], [], 0⟩ := by
  decide

/-! ## C2: to_reprocess retention after success vs. classified failure -/

def c2Tracking : List (String × TrackEntry) := [(keyConformant, ⟨none, ["old.json"]⟩)]

def c2Reproc : ReprocLog := ⟨[keyConformant], [], [], [keyConformant], []⟩

def c2EnvSuccess : SessionEnv :=
  ⟨true, [(fileConformant, [scanGood])], true, ["d1"], 7, true, 3, true⟩

def c2EnvNoArchive : SessionEnv :=
  ⟨true, [(fileConformant, [scanGood])], false, ["d1"], 7, true, 3, true⟩

/-- C2 (code evaluated at the failing input) — A session placed in
`to_reprocess` (and in the `no_niftis_to_upload` bucket) whose reprocess
run succeeds end to end is written back *still in* `to_reprocess` (the
success path removed it from `reprocess_attempted`, so the final filter
keeps it), though the four failure buckets are cleared; the same session
failing with a missing archive is *dropped* from `to_reprocess` while
its buckets are retained.  This is the opposite of the claimed
success-removes / failure-keeps behaviour. -/
theorem c2_to_reprocess_retention_inverted :
    written_reproc_log (main_run [fileConformant] c2Tracking (some c2Reproc)
        (fun _ => c2EnvSuccess) true 20) =
      some ⟨[keyConformant], [], [], [], []⟩ ∧
    written_reproc_log (main_run [fileConformant] c2Tracking (some c2Reproc)
        (fun _ => c2EnvNoArchive) true 20) =
      some ⟨[], [], [], [keyConformant], [keyConformant]⟩ := by
  decide

/-! ## C5: the batch cap -/

theorem selectLoop_invariant (tracking : List (String × TrackEntry))
    (to_re skip : List String) (limit : Int) :
    ∀ (l : List (String × List String)) (acc : SelectAcc),
      acc.num_to_process = acc.sessions_to_evaluate.length →
      acc.num_to_process < limit →
      (selectLoop tracking to_re skip limit l acc).num_to_process =
        ((selectLoop tracking to_re skip limit l acc).sessions_to_evaluate.length : Int) ∧
      (selectLoop tracking to_re skip limit l acc).num_to_process ≤ limit := by
  intro l
  induction l with
  | nil => intro acc h1 h2; exact ⟨h1, le_of_lt h2⟩
  | cons hd tl ih =>
    intro acc h1 h2
    obtain ⟨key, js⟩ := hd
    simp only [selectLoop]
    split
    · -- key ∈ skip: continue
      exact ih acc h1 h2
    · split
      · -- tracked session
        split
        · -- key ∈ to_reprocess: unconditional add, then the break check
          split
          · rename_i hb
            have hb' : acc.num_to_process + 1 = limit := hb
            constructor
            · show acc.num_to_process + 1 =
                ((acc.sessions_to_evaluate ++ [(key, js)]).length : Int)
              simp only [List.length_append, List.length_cons, List.length_nil]
              push_cast
              omega
            · show acc.num_to_process + 1 ≤ limit
              omega
          · rename_i hb
            have hb' : ¬ acc.num_to_process + 1 = limit := hb
            apply ih
            · show acc.num_to_process + 1 =
                ((acc.sessions_to_evaluate ++ [(key, js)]).length : Int)
              simp only [List.length_append, List.length_cons, List.length_nil]
              push_cast
              omega
            · show acc.num_to_process + 1 < limit
              omega
        · split
          · -- unchanged metadata set: continue
            exact ih acc h1 h2
          · -- flagged new_archive_available, then the break check
            split
            · rename_i hb
              have hb' : acc.num_to_process = limit := hb
              exact absurd hb' (by omega)
            · exact ih _ h1 h2
      · -- untracked session: the num_to_process < batch_limit guard held (h2)
        split
        · rename_i hb
          have hb' : acc.num_to_process + 1 = limit := hb
          constructor
          · show acc.num_to_process + 1 =
              ((acc.sessions_to_evaluate ++ [(key, js)]).length : Int)
            simp only [List.length_append, List.length_cons, List.length_nil]
            push_cast
            omega
          · show acc.num_to_process + 1 ≤ limit
            omega
        · rename_i hb
          have hb' : ¬ acc.num_to_process + 1 = limit := hb
          apply ih
          · show acc.num_to_process + 1 =
              ((acc.sessions_to_evaluate ++ [(key, js)]).length : Int)
            simp only [List.length_append, List.length_cons, List.length_nil]
            push_cast
            omega
          · show acc.num_to_process + 1 < limit
            omega

/-- C5 (amended) — Provided the configured batch limit is at least 1 (the
command-line default is 20), the number of sessions selected for
evaluation in a run never exceeds the batch limit. -/
theorem c5_batch_cap_holds_for_positive_limit (files : List String)
    (tracking : List (String × TrackEntry)) (reproc : Option ReprocLog)
    (limit : Int) (h : 1 ≤ limit) :
    ((main_sel files tracking reproc limit).sessions_to_evaluate.length : Int) ≤
      limit := by
  have h0 : main_sel files tracking reproc limit =
      selectLoop tracking (reproc.getD ⟨[], [], [], [], []⟩).to_reprocess
        (sessions_to_skip_of (reproc.getD ⟨[], [], [], [], []⟩)) limit
        (jsons_dict_of files)
        ⟨[], (reproc.getD ⟨[], [], [], [], []⟩).new_archive_available, [], 0⟩ := rfl
  rw [h0]
  obtain ⟨e1, e2⟩ := selectLoop_invariant tracking
    (reproc.getD ⟨[], [], [], [], []⟩).to_reprocess
    (sessions_to_skip_of (reproc.getD ⟨[], [], [], [], []⟩)) limit
    (jsons_dict_of files)
    ⟨[], (reproc.getD ⟨[], [], [], [], []⟩).new_archive_available, [], 0⟩
    (by simp) (by dsimp only; omega)
  omega

/-- C5 witness: with one pending session and batch limit 1 the cap holds
(with equality). -/
theorem c5_batch_cap_witness :
    (1 : Int) ≤ 1 ∧
      ((main_sel [fileConformant] [] none 1).sessions_to_evaluate.length : Int) ≤ 1 :=
  ⟨by decide, c5_batch_cap_holds_for_positive_limit [fileConformant] [] none 1 (by decide)⟩

def c5Tracking : List (String × TrackEntry) := [(keyConformant, ⟨none, ["old.json"]⟩)]

def c5Reproc : ReprocLog := ⟨[keyConformant], [], [], [], []⟩

/-- C5 counterexample — With a configured batch limit of 0 (the
command-line option accepts any int) and one `to_reprocess` session, the
selection phase still selects that session: the `to_reprocess` branch
increments `num_to_process` without a limit check, and the
`num_to_process == batch_limit` break never fires, so the claimed bound is
violated. -/
theorem c5_batch_cap_counterexample :
    ¬ (((main_sel [fileConformant] c5Tracking (some c5Reproc) 0).sessions_to_evaluate.length : Int) ≤ 0) := by
  decide

/-! ## C4: infrastructure failures abort the batch with both logs unwritten -/

/-- A session's processing reaches the upload step: selection produced a
winner, the archive download succeeded, at least one QALAS folder was
located, conversion did not raise, and at least 3 niftis were generated. -/
def reaches_upload (env : SessionEnv) : Bool :=
  match effective_selection env.scans with
  | (none, _) => false
  | (some info, _) =>
    if env.archive_fetch_ok = false then false
    else if env.qalas_folders.length = 0 then false
    else
      match convert_single_tar (some env.qalas_folders) info
          env.symri_output_count env.dcm2bids_ok env.niftis_found with
      | Except.error _ => false
      | Except.ok out => if out.num_niftis_generated < 3 then false else true

/-- The session hits an infrastructure failure: its QC-metadata fetch fails,
or it reaches the upload step and the upload fails. -/
def infra_failure (env : SessionEnv) : Bool :=
  if env.json_fetch_ok = false then true
  else if reaches_upload env then (if env.upload_ok = false then true else false)
  else false

theorem process_session_error_of_infra (env : SessionEnv)
    (h : infra_failure env = true) (keep : Bool) (key : String)
    (js : List String) (st : RunState) :
    run_failed (process_session keep key js env st) = true := by
  unfold infra_failure at h
  simp only [process_session]
  split
  · rfl
  · rename_i hf
    rw [if_neg hf] at h
    by_cases hr : reaches_upload env = true
    · rw [if_pos hr] at h
      by_cases hu : env.upload_ok = false
      · clear h
        rcases heq : effective_selection env.scans with ⟨obest, miss⟩
        rcases obest with _ | info
        · simp [reaches_upload, heq] at hr
        · by_cases harch : env.archive_fetch_ok = false
          · simp [reaches_upload, heq, harch] at hr
          · by_cases h0 : env.qalas_folders.length = 0
            · simp [reaches_upload, heq, harch, h0] at hr
            · rcases hconv : convert_single_tar (some env.qalas_folders) info
                  env.symri_output_count env.dcm2bids_ok env.niftis_found with e | out
              · simp [reaches_upload, heq, harch, h0, hconv] at hr
              · by_cases hn : out.num_niftis_generated < 3
                · simp [reaches_upload, heq, harch, h0, hconv, hn] at hr
                · simp [run_failed, heq, harch, h0, hconv, hn, hu]
      · rw [if_neg hu] at h
        exact Bool.noConfusion h
    · rw [if_neg hr] at h
      exact Bool.noConfusion h

theorem process_all_error_of_mem (keep : Bool) (envs : String → SessionEnv) :
    ∀ (l : List (String × List String)) (key : String) (js : List String),
      (key, js) ∈ l →
      (∀ st, run_failed (process_session keep key js (envs key) st) = true) →
      ∀ st0, run_failed (process_all keep envs l st0) = true := by
  intro l
  induction l with
  | nil => intro key js hmem; cases hmem
  | cons hd tl ih =>
    intro key js hmem herr st0
    obtain ⟨k0, j0⟩ := hd
    simp only [process_all]
    rcases hres : process_session keep k0 j0 (envs k0) st0 with e | p
    · rfl
    · obtain ⟨st', o⟩ := p
      rcases List.mem_cons.mp hmem with heq | hmem'
      · injection heq with hk hj
        subst hk
        subst hj
        have hcontra := herr st0
        rw [hres] at hcontra
        exact Bool.noConfusion (show false = true from hcontra)
      · show run_failed (process_all keep envs tl st') = true
        exact ih key js hmem' herr st'

/-- C4 — If fetching a session's QC metadata files fails, or its processing
reaches the upload step and the upload fails, the run raises and aborts the
whole batch: `main_run` returns an error and neither the tracking log nor
the reprocess log is produced, so the previously written versions remain
the last known-good state for the next run. -/
theorem c4_infrastructure_failure_aborts_run_with_logs_unwritten
    (files : List String) (tracking : List (String × TrackEntry))
    (reproc : Option ReprocLog) (envs : String → SessionEnv)
    (keep_work_dirs : Bool) (limit : Int) (key : String) (js : List String)
    (hmem : (key, js) ∈ (main_sel files tracking reproc limit).sessions_to_evaluate)
    (hfail : infra_failure (envs key) = true) :
    run_failed (main_run files tracking reproc envs keep_work_dirs limit) = true ∧
      written_tracking_log (main_run files tracking reproc envs keep_work_dirs limit) = none ∧
      written_reproc_log (main_run files tracking reproc envs keep_work_dirs limit) = none := by
  have herr := fun st => process_session_error_of_infra (envs key) hfail keep_work_dirs key js st
  have hall := process_all_error_of_mem keep_work_dirs envs
    (main_sel files tracking reproc limit).sessions_to_evaluate key js hmem herr
    (main_st0 files tracking reproc limit)
  unfold main_run
  rcases hres : process_all keep_work_dirs envs
      (main_sel files tracking reproc limit).sessions_to_evaluate
      (main_st0 files tracking reproc limit) with e | stf
  · exact ⟨rfl, rfl, rfl⟩
  · rw [hres] at hall
    exact Bool.noConfusion (show false = true from hall)

def c4Env : SessionEnv := ⟨false, [(fileConformant, [scanGood])], true, ["d1"], 7, true, 3, true⟩

/-- C4 witness: a batch with one pending session whose QC-metadata fetch
fails ends in an error with no logs produced. -/
theorem c4_witness :
    run_failed (main_run [fileConformant] [] none (fun _ => c4Env) true 20) = true ∧
      written_tracking_log (main_run [fileConformant] [] none (fun _ => c4Env) true 20) = none ∧
      written_reproc_log (main_run [fileConformant] [] none (fun _ => c4Env) true 20) = none :=
  c4_infrastructure_failure_aborts_run_with_logs_unwritten [fileConformant] []
    none (fun _ => c4Env) true 20 keyConformant [fileConformant] (by decide)
    (by decide)

/-! ## C7: working-directory cleanup by outcome -/

theorem mem_workdirInsert (w : List String) (k : String) : k ∈ workdirInsert w k := by
  unfold workdirInsert
  split
  · assumption
  · simp

theorem not_mem_cleanupWorkdir_false (k : String) (st : RunState) :
    k ∉ (cleanupWorkdir false k st).work_dirs := by
  unfold cleanupWorkdir
  simp [List.mem_filter]

/-- C7 (amended) — When work-dir retention is not requested
(`keep_work_dirs = False`), the session working directory is removed only
on the paths that fall through to the cleanup block — success,
no-qualifying-scan and data-incomplete — while every classified failure
(`missing_archive`, `qalas_in_qc_but_not_archive`, `no_niftis_to_upload`)
`continue`s before the cleanup and leaves the working directory in place. -/
theorem c7_workdir_cleanup_skipped_on_classified_failure
    (key : String) (js : List String) (env : SessionEnv) (st st' : RunState)
    (out : SessionOutcome)
    (h : process_session false key js env st = Except.ok (st', out)) :
    ((out = SessionOutcome.success ∨ out = SessionOutcome.no_qualifying_scan ∨
        out = SessionOutcome.data_incomplete) → key ∉ st'.work_dirs) ∧
    ((out = SessionOutcome.missing_archive ∨
        out = SessionOutcome.qalas_in_qc_but_not_archive ∨
        out = SessionOutcome.no_niftis_to_upload) → key ∈ st'.work_dirs) := by
  simp only [process_session] at h
  split at h
  · exact Except.noConfusion h
  · split at h
    · -- selection produced a winner
      split at h
      · -- missing_archive
        injection h with hp
        injection hp with h1 h2
        subst h1
        subst h2
        refine ⟨fun hout => ?_, fun _ => mem_workdirInsert st.work_dirs key⟩
        rcases hout with h' | h' | h' <;> exact SessionOutcome.noConfusion h'
      · split at h
        · -- qalas_in_qc_but_not_archive
          injection h with hp
          injection hp with h1 h2
          subst h1
          subst h2
          refine ⟨fun hout => ?_, fun _ => mem_workdirInsert st.work_dirs key⟩
          rcases hout with h' | h' | h' <;> exact SessionOutcome.noConfusion h'
        · split at h
          · -- conversion raised
            exact Except.noConfusion h
          · split at h
            · -- no_niftis_to_upload
              injection h with hp
              injection hp with h1 h2
              subst h1
              subst h2
              refine ⟨fun hout => ?_, fun _ => mem_workdirInsert st.work_dirs key⟩
              rcases hout with h' | h' | h' <;> exact SessionOutcome.noConfusion h'
            · split at h
              · -- upload raised
                exact Except.noConfusion h
              · -- success (with or without the reprocess_attempted removal)
                injection h with hp
                injection hp with h1 h2
                subst h1
                subst h2
                refine ⟨fun _ => not_mem_cleanupWorkdir_false key _, fun hout => ?_⟩
                rcases hout with h' | h' | h' <;> exact SessionOutcome.noConfusion h'
    · -- no winner
      split at h
      · -- no_qualifying_scan
        injection h with hp
        injection hp with h1 h2
        subst h1
        subst h2
        refine ⟨fun _ => not_mem_cleanupWorkdir_false key _, fun hout => ?_⟩
        rcases hout with h' | h' | h' <;> exact SessionOutcome.noConfusion h'
      · -- data_incomplete
        injection h with hp
        injection hp with h1 h2
        subst h1
        subst h2
        refine ⟨fun _ => not_mem_cleanupWorkdir_false key _, fun hout => ?_⟩
        rcases hout with h' | h' | h' <;> exact SessionOutcome.noConfusion h'

def c7Env : SessionEnv := ⟨true, [(fileConformant, [scanGood])], false, ["d1"], 7, true, 3, true⟩

/-- C7 counterexample — With `keep_work_dirs = False`, a session that fails
with `missing_archive` (a classified failure) keeps its working directory:
the `continue` at `update.py` line 837 bypasses the cleanup block at lines
916-921, contradicting the claim that the directory is removed regardless
of outcome. -/
theorem c7_classified_failure_keeps_workdir_counterexample :
    session_result_outcome
        (process_session false keyConformant [fileConformant] c7Env stEmpty) =
      some SessionOutcome.missing_archive ∧
    (session_result_state
        (process_session false keyConformant [fileConformant] c7Env stEmpty)).map
        (fun s => decide (keyConformant ∈ s.work_dirs)) = some true := by
  decide

def c7StWit : RunState :=
  ⟨[], [], [], [], [], [keyConformant], [], [keyConformant]⟩

/-- C7 witness: the amended theorem applied to the concrete
missing-archive run. -/
theorem c7_workdir_witness : keyConformant ∈ c7StWit.work_dirs :=
  (c7_workdir_cleanup_skipped_on_classified_failure keyConformant
      [fileConformant] c7Env stEmpty c7StWit SessionOutcome.missing_archive
      rfl).2 (Or.inl rfl)

/-! ## C8: grouping never excludes a filename; the pattern check happens at
conversion -/

theorem lookupEntry_setEntry_self {α : Type} (d : List (String × α))
    (k : String) (v : α) : lookupEntry (setEntry d k v) k = some v := by
  induction d with
  | nil => simp [setEntry, lookupEntry]
  | cons hd tl ih =>
    obtain ⟨k', v'⟩ := hd
    by_cases hk : k' = k
    · simp [setEntry, hk, lookupEntry]
    · simp [setEntry, hk, lookupEntry, ih]

theorem lookupEntry_setEntry_ne {α : Type} (d : List (String × α))
    (k k' : String) (v : α) (hne : k' ≠ k) :
    lookupEntry (setEntry d k v) k' = lookupEntry d k' := by
  induction d with
  | nil => simp [setEntry, lookupEntry, Ne.symm hne]
  | cons hd tl ih =>
    obtain ⟨k0, v0⟩ := hd
    by_cases hk : k0 = k
    · subst hk
      simp [setEntry, lookupEntry, Ne.symm hne]
    · simp [setEntry, hk, lookupEntry, ih]

theorem lookupEntry_append_of_some {α : Type} (d l : List (String × α))
    (k : String) (v : α) (h : lookupEntry d k = some v) :
    lookupEntry (d ++ l) k = some v := by
  induction d with
  | nil => simp [lookupEntry] at h
  | cons hd tl ih =>
    obtain ⟨k', v'⟩ := hd
    by_cases hk : k' = k
    · simp only [lookupEntry, if_pos hk] at h
      simp only [List.cons_append, lookupEntry, if_pos hk]
      exact h
    · simp only [lookupEntry, if_neg hk] at h
      simp only [List.cons_append, lookupEntry, if_neg hk]
      exact ih h

theorem lookupEntry_append_of_none {α : Type} (d l : List (String × α))
    (k : String) (h : lookupEntry d k = none) :
    lookupEntry (d ++ l) k = lookupEntry l k := by
  induction d with
  | nil => simp
  | cons hd tl ih =>
    obtain ⟨k', v'⟩ := hd
    by_cases hk : k' = k
    · simp only [lookupEntry, if_pos hk] at h
      exact Option.noConfusion h
    · simp only [lookupEntry, if_neg hk] at h
      simp only [List.cons_append, lookupEntry, if_neg hk]
      exact ih h

theorem mem_lookup_add_self (d : List (String × List String)) (f : String) :
    f ∈ lookupListD (add_to_jsons_dict d f) (session_key_of f) := by
  simp only [add_to_jsons_dict, lookupListD]
  rcases hl : lookupEntry d (session_key_of f) with _ | l
  · show f ∈ (lookupEntry (d ++ [(session_key_of f, [f])]) (session_key_of f)).getD []
    rw [lookupEntry_append_of_none _ _ _ hl]
    simp [lookupEntry]
  · show f ∈
      (lookupEntry (setEntry d (session_key_of f) (l ++ [f])) (session_key_of f)).getD []
    rw [lookupEntry_setEntry_self]
    simp

theorem mem_lookup_add_preserve (d : List (String × List String)) (f g : String)
    (h : f ∈ lookupListD d (session_key_of f)) :
    f ∈ lookupListD (add_to_jsons_dict d g) (session_key_of f) := by
  simp only [lookupListD] at h ⊢
  rcases hfl : lookupEntry d (session_key_of f) with _ | lf
  · rw [hfl] at h
    simp at h
  · rw [hfl] at h
    simp only [Option.getD_some] at h
    simp only [add_to_jsons_dict]
    by_cases hkey : session_key_of g = session_key_of f
    · rcases hgl : lookupEntry d (session_key_of g) with _ | lg
      · rw [hkey, hfl] at hgl
        exact Option.noConfusion hgl
      · rw [hkey] at hgl
        rw [hfl] at hgl
        injection hgl with hlg
        subst hlg
        show f ∈
          (lookupEntry (setEntry d (session_key_of g) (lf ++ [g])) (session_key_of f)).getD []
        rw [hkey]
        rw [lookupEntry_setEntry_self]
        simp only [Option.getD_some]
        exact List.mem_append_left _ h
    · rcases hgl : lookupEntry d (session_key_of g) with _ | lg
      · show f ∈
          (lookupEntry (d ++ [(session_key_of g, [g])]) (session_key_of f)).getD []
        rw [lookupEntry_append_of_some _ _ _ _ hfl]
        simpa using h
      · show f ∈
          (lookupEntry (setEntry d (session_key_of g) (lg ++ [g])) (session_key_of f)).getD []
        rw [lookupEntry_setEntry_ne _ _ _ _ (fun he => hkey he.symm)]
        rw [hfl]
        simpa using h

theorem mem_lookup_jsons_dict_foldl :
    ∀ (files : List String) (acc : List (String × List String)) (f : String),
      (f ∈ files ∨ f ∈ lookupListD acc (session_key_of f)) →
      f ∈ lookupListD (files.foldl add_to_jsons_dict acc) (session_key_of f) := by
  intro files
  induction files with
  | nil =>
    intro acc f h
    rcases h with h | h
    · cases h
    · simpa using h
  | cons g gs ih =>
    intro acc f h
    simp only [List.foldl_cons]
    apply ih
    rcases h with h | h
    · rcases List.mem_cons.mp h with heq | hmem
      · subst heq
        exact Or.inr (mem_lookup_add_self acc f)
      · exact Or.inl hmem
    · exact Or.inr (mem_lookup_add_preserve acc f g h)

/-- C8 (amended) — The grouping step never excludes a metadata filename:
every listed file, conformant or not, is grouped under the key made of its
first three underscore-delimited tokens.  The 9/6/3 pattern is checked only
during conversion (`targz_to_sub_ses_labels` on the derived archive name):
a non-conformant name produces the `NON_CONFORMANT_TAR_NAME` sentinel
labels with zero generated niftis, so such a session is processed and then
routed into the generic `no_niftis_to_upload` bucket, not flagged
distinctly. -/
theorem c8_nonconformant_names_grouped_and_bucketed :
    (∀ (files : List String) (f : String), f ∈ files →
        f ∈ lookupListD (jsons_dict_of files) (session_key_of f)) ∧
    (∀ (folders : List String) (info : BestQalasInfo) (so : Nat) (db : Bool)
        (nf : Nat), targz_to_sub_ses_labels info.archive_to_download = none →
        convert_single_tar (some folders) info so db nf =
          Except.ok ⟨"NON_CONFORMANT_TAR_NAME", "NON_CONFORMANT_TAR_NAME", 0, 0, 0⟩) ∧
    (∀ (keep : Bool) (key : String) (js : List String) (env : SessionEnv)
        (st : RunState) (info : BestQalasInfo) (b : Bool),
        env.json_fetch_ok = true →
        effective_selection env.scans = (some info, b) →
        targz_to_sub_ses_labels info.archive_to_download = none →
        env.archive_fetch_ok = true →
        ¬ env.qalas_folders.length = 0 →
        session_result_outcome (process_session keep key js env st) =
            some SessionOutcome.no_niftis_to_upload ∧
          (session_result_state (process_session keep key js env st)).map
              (fun s => decide (key ∈ s.no_niftis_to_upload)) = some true) := by
  refine ⟨fun files f hf => mem_lookup_jsons_dict_foldl files [] f (Or.inl hf),
    ?_, ?_⟩
  · intro folders info so db nf hparse
    unfold convert_single_tar
    rw [hparse]
  · intro keep key js env st info b hf hsel hparse harch h0
    have hconv : convert_single_tar (some env.qalas_folders) info
        env.symri_output_count env.dcm2bids_ok env.niftis_found =
        Except.ok ⟨"NON_CONFORMANT_TAR_NAME", "NON_CONFORMANT_TAR_NAME", 0, 0, 0⟩ := by
      unfold convert_single_tar
      rw [hparse]
    simp [process_session, hf, hsel, harch, h0, hconv, session_result_outcome,
      session_result_state]

def fileBad : String := "BAD_12_V0_mripcqc_info.json"

def c8Env : SessionEnv := ⟨true, [(fileBad, [scanGood])], true, ["d1"], 7, true, 3, true⟩

/-- C8 counterexample — The non-conformant filename
`BAD_12_V0_mripcqc_info.json` (tokens of lengths 3/2/2) is *included* in the
session grouping under key `BAD_12_V0`, its session *is* processed, and it
lands in the ordinary `no_niftis_to_upload` bucket — the same bucket normal
conversion failures use — contradicting "excluded from grouping", "never
processed" and "flagged distinctly from normal failures". -/
theorem c8_nonconformant_grouped_and_processed_counterexample :
    lookupListD (jsons_dict_of [fileBad]) "BAD_12_V0" = [fileBad] ∧
    targz_to_sub_ses_labels fileBad = none ∧
    session_result_outcome
        (process_session true "BAD_12_V0" [fileBad] c8Env stEmpty) =
      some SessionOutcome.no_niftis_to_upload ∧
    (session_result_state
        (process_session true "BAD_12_V0" [fileBad] c8Env stEmpty)).map
        (fun s => decide ("BAD_12_V0" ∈ s.no_niftis_to_upload)) = some true := by
  decide

def c8Info : BestQalasInfo := update_best_qalas_info_dict scanGood fileBad

/-- C8 witness: the amended theorem applied to the concrete non-conformant
file. -/
theorem c8_witness :
    fileBad ∈ lookupListD (jsons_dict_of [fileBad]) (session_key_of fileBad) ∧
    convert_single_tar (some ["d1"]) c8Info 7 true 3 =
      Except.ok ⟨"NON_CONFORMANT_TAR_NAME", "NON_CONFORMANT_TAR_NAME", 0, 0, 0⟩ ∧
    (session_result_outcome (process_session true "B" [] c8Env stEmpty) =
        some SessionOutcome.no_niftis_to_upload ∧
      (session_result_state (process_session true "B" [] c8Env stEmpty)).map
          (fun s => decide ("B" ∈ s.no_niftis_to_upload)) = some true) :=
  ⟨c8_nonconformant_names_grouped_and_bucketed.1 [fileBad] fileBad (by decide),
    c8_nonconformant_names_grouped_and_bucketed.2.1 ["d1"] c8Info 7 true 3
      (by decide),
    c8_nonconformant_names_grouped_and_bucketed.2.2 true "B" [] c8Env stEmpty
      c8Info false (by decide) (by decide) (by decide) (by decide) (by decide)⟩

/-! ## C9: tracking log append-versioned, reprocess log rewritten in place -/

theorem tracking_log_path_injective (logs_dir ts1 ts2 : String) (h : ts1 ≠ ts2) :
    tracking_log_path logs_dir ts1 ≠ tracking_log_path logs_dir ts2 := by
  intro he
  apply h
  unfold tracking_log_path at he
  have hd := congrArg String.data he
  simp only [String.data_append] at hd
  exact String.ext (List.append_cancel_left (List.append_cancel_right hd))

/-- C9 (amended) — The tracking log is append-versioned: each run writes a
fresh `tracking_log_<timestamp>.json` (distinct timestamps give distinct
paths, so an earlier tracking-log version survives a later run), while the
reprocess log is rewritten in place at the fixed path `reproc_log.json`,
where the later run's contents replace the earlier run's. -/
theorem c9_tracking_versioned_reproc_log_rewritten_in_place
    (base logs_dir ts1 ts2 : String) (c1 c2 : Nat) (hts : ts1 ≠ ts2)
    (hd1 : tracking_log_path logs_dir ts1 ≠ reproc_log_path base) :
    tracking_log_path logs_dir ts1 ≠ tracking_log_path logs_dir ts2 ∧
    lookupEntry
        (apply_writes (apply_writes [] (run_log_writes base logs_dir ts1 c1))
          (run_log_writes base logs_dir ts2 c2))
        (tracking_log_path logs_dir ts1) = some c1 ∧
    lookupEntry
        (apply_writes (apply_writes [] (run_log_writes base logs_dir ts1 c1))
          (run_log_writes base logs_dir ts2 c2))
        (reproc_log_path base) = some c2 := by
  have hne := tracking_log_path_injective logs_dir ts1 ts2 hts
  refine ⟨hne, ?_, ?_⟩
  · show lookupEntry
        (setEntry
          (setEntry
            (setEntry (setEntry [] (tracking_log_path logs_dir ts1) c1)
              (reproc_log_path base) c1)
            (tracking_log_path logs_dir ts2) c2)
          (reproc_log_path base) c2)
        (tracking_log_path logs_dir ts1) = some c1
    rw [lookupEntry_setEntry_ne _ _ _ _ hd1]
    rw [lookupEntry_setEntry_ne _ _ _ _ hne]
    rw [lookupEntry_setEntry_ne _ _ _ _ hd1]
    exact lookupEntry_setEntry_self _ _ _
  · show lookupEntry
        (setEntry
          (setEntry
            (setEntry (setEntry [] (tracking_log_path logs_dir ts1) c1)
              (reproc_log_path base) c1)
            (tracking_log_path logs_dir ts2) c2)
          (reproc_log_path base) c2)
        (reproc_log_path base) = some c2
    exact lookupEntry_setEntry_self _ _ _

/-- C9 witness: two concrete runs with distinct timestamps. -/
theorem c9_versioning_witness :
    tracking_log_path "/b/logs" "t1" ≠ tracking_log_path "/b/logs" "t2" ∧
    lookupEntry
        (apply_writes (apply_writes [] (run_log_writes "/b" "/b/logs" "t1" 1))
          (run_log_writes "/b" "/b/logs" "t2" 2))
        (tracking_log_path "/b/logs" "t1") = some 1 ∧
    lookupEntry
        (apply_writes (apply_writes [] (run_log_writes "/b" "/b/logs" "t1" 1))
          (run_log_writes "/b" "/b/logs" "t2" 2))
        (reproc_log_path "/b") = some 2 :=
  c9_tracking_versioned_reproc_log_rewritten_in_place "/b" "/b/logs" "t1" "t2"
    1 2 (by decide) (by decide)

/-- C9 counterexample — The reprocess log is *not* persisted as a new
timestamped version: both runs write to the same fixed path
`reproc_log.json`, so the second run changes the previously written
version's contents (1 becomes 2), contradicting "leaves all previously
written log versions unchanged and persists both logs as brand-new
timestamped versions". -/
theorem c9_reproc_log_overwritten_counterexample :
    lookupEntry (apply_writes [] (run_log_writes "/b" "/b/logs" "t1" 1))
        (reproc_log_path "/b") = some 1 ∧
    lookupEntry
        (apply_writes (apply_writes [] (run_log_writes "/b" "/b/logs" "t1" 1))
          (run_log_writes "/b" "/b/logs" "t2" 2))
        (reproc_log_path "/b") = some 2 := by
  decide

/-! ## C10: multiple matching QALAS folders -/

theorem process_session_error_of_multiple_folders (env : SessionEnv)
    (info : BestQalasInfo) (b : Bool)
    (hsel : effective_selection env.scans = (some info, b))
    (hparse : (targz_to_sub_ses_labels info.archive_to_download).isSome = true)
    (hf : env.json_fetch_ok = true) (harch : env.archive_fetch_ok = true)
    (hfold : 2 ≤ env.qalas_folders.length) (keep : Bool) (key : String)
    (js : List String) (st : RunState) :
    run_failed (process_session keep key js env st) = true := by
  obtain ⟨pair, hp⟩ := Option.isSome_iff_exists.mp hparse
  obtain ⟨sub, ses⟩ := pair
  have h1 : ¬ env.qalas_folders.length = 1 := by omega
  have h0 : ¬ env.qalas_folders.length = 0 := by omega
  have hconv : convert_single_tar (some env.qalas_folders) info
      env.symri_output_count env.dcm2bids_ok env.niftis_found =
      Except.error "Error: multiple qalas archives were erroneously identified" := by
    unfold convert_single_tar
    rw [hp]
    simp [h1]
  simp [process_session, hf, hsel, harch, h0, hconv, run_failed]

/-- C10 (amended) — For a session whose selected archive name parses to
valid subject/session labels, locating more than one matching QALAS folder
makes `convert_single_tar` raise an unhandled `NameError`: the whole batch
aborts and neither log is produced.  (When the archive name is
non-conformant, the early `NON_CONFORMANT_TAR_NAME` return bypasses the
folder-count check — see the counterexample.) -/
theorem c10_multiple_folders_abort_run_for_conformant_names
    (files : List String) (tracking : List (String × TrackEntry))
    (reproc : Option ReprocLog) (envs : String → SessionEnv)
    (keep_work_dirs : Bool) (limit : Int) (key : String) (js : List String)
    (info : BestQalasInfo) (b : Bool)
    (hmem : (key, js) ∈ (main_sel files tracking reproc limit).sessions_to_evaluate)
    (hsel : effective_selection ((envs key).scans) = (some info, b))
    (hparse : (targz_to_sub_ses_labels info.archive_to_download).isSome = true)
    (hf : (envs key).json_fetch_ok = true)
    (harch : (envs key).archive_fetch_ok = true)
    (hfold : 2 ≤ (envs key).qalas_folders.length) :
    run_failed (main_run files tracking reproc envs keep_work_dirs limit) = true ∧
      written_tracking_log (main_run files tracking reproc envs keep_work_dirs limit) = none ∧
      written_reproc_log (main_run files tracking reproc envs keep_work_dirs limit) = none := by
  have herr := fun st => process_session_error_of_multiple_folders (envs key)
    info b hsel hparse hf harch hfold keep_work_dirs key js st
  have hall := process_all_error_of_mem keep_work_dirs envs
    (main_sel files tracking reproc limit).sessions_to_evaluate key js hmem herr
    (main_st0 files tracking reproc limit)
  unfold main_run
  rcases hres : process_all keep_work_dirs envs
      (main_sel files tracking reproc limit).sessions_to_evaluate
      (main_st0 files tracking reproc limit) with e | stf
  · exact ⟨rfl, rfl, rfl⟩
  · rw [hres] at hall
    exact Bool.noConfusion (show false = true from hall)

def c10Env : SessionEnv :=
  ⟨true, [(fileConformant, [scanGood])], true, ["d1", "d2"], 7, true, 3, true⟩

def c10Info : BestQalasInfo := update_best_qalas_info_dict scanGood fileConformant

/-- C10 witness: a conformant archive with two matching folders aborts the
whole run with no logs produced. -/
theorem c10_multiple_folders_witness :
    run_failed (main_run [fileConformant] [] none (fun _ => c10Env) true 20) = true ∧
      written_tracking_log
          (main_run [fileConformant] [] none (fun _ => c10Env) true 20) = none ∧
      written_reproc_log
          (main_run [fileConformant] [] none (fun _ => c10Env) true 20) = none :=
  c10_multiple_folders_abort_run_for_conformant_names [fileConformant] [] none
    (fun _ => c10Env) true 20 keyConformant [fileConformant] c10Info false
    (by decide) (by decide) (by decide) (by decide) (by decide) (by decide)

def c10BadEnv : SessionEnv :=
  ⟨true, [(fileBad, [scanGood])], true, ["d1", "d2"], 7, true, 3, true⟩

/-- C10 counterexample — A session whose extraction located *two* matching
QALAS folders but whose archive name is non-conformant does not raise:
`convert_single_tar` returns the `NON_CONFORMANT_TAR_NAME` output before
the folder-count check, and the session is routed to the
`no_niftis_to_upload` reprocess bucket, contradicting the claim that every
such session raises (and is not routed to a bucket). -/
theorem c10_nonconformant_multiple_folders_counterexample :
    run_failed (process_session true "BAD_12_V0" [fileBad] c10BadEnv stEmpty) =
      false ∧
    session_result_outcome
        (process_session true "BAD_12_V0" [fileBad] c10BadEnv stEmpty) =
      some SessionOutcome.no_niftis_to_upload ∧
    (session_result_state
        (process_session true "BAD_12_V0" [fileBad] c10BadEnv stEmpty)).map
        (fun s => decide ("BAD_12_V0" ∈ s.no_niftis_to_upload)) = some true := by
  decide

end SymriUpdate
